import Mathlib

/-!
Verification development for the NVD CVE ETL connector (`etl_connector.py`,
class `NVDETLConnector`).

The connector's record values are arbitrary JSON/Python values; we embed them
as the inductive type `Json`.  Python's `None` and JSON `null` are the same
value, embedded as `Json.null`; in particular `dict.get(k)` with no default
returns `Json.null` both when the key is absent and when it maps to null,
exactly as in Python.  Fallible Python expressions (attribute errors on
non-dicts, `KeyError`, unhashable dict keys, ...) are embedded in the
`Except Unit` monad; the per-record `try/except` of `transform_data` turns an
`Except.error` into skipping the record.

Wall-clock values (`datetime.now`) are passed in explicitly as integer UTC
timestamps in seconds, and `datetime.fromisoformat` is abstracted as a
parameter `parseIso : String → Option Int` (returning `none` when parsing
fails or when the parsed datetime is naive, since comparing a naive datetime
with an aware one raises and the bare `except` returns `False`).
-/

inductive Json where
  | null
  | bool (b : Bool)
  | num (n : Int)
  | str (s : String)
  | arr (xs : List Json)
  | obj (kvs : List (String × Json))

mutual

def Json.decEq : (a b : Json) → Decidable (a = b)
  | .null, .null => .isTrue rfl
  | .bool x, .bool y =>
      if h : x = y then .isTrue (by rw [h]) else .isFalse (fun hh => h (Json.bool.inj hh))
  | .num x, .num y =>
      if h : x = y then .isTrue (by rw [h]) else .isFalse (fun hh => h (Json.num.inj hh))
  | .str x, .str y =>
      if h : x = y then .isTrue (by rw [h]) else .isFalse (fun hh => h (Json.str.inj hh))
  | .arr xs, .arr ys =>
      match Json.decEqArr xs ys with
      | .isTrue h => .isTrue (by rw [h])
      | .isFalse h => .isFalse (fun hh => h (Json.arr.inj hh))
  | .obj xs, .obj ys =>
      match Json.decEqObj xs ys with
      | .isTrue h => .isTrue (by rw [h])
      | .isFalse h => .isFalse (fun hh => h (Json.obj.inj hh))
  | .null, .bool _ | .null, .num _ | .null, .str _ | .null, .arr _ | .null, .obj _
  | .bool _, .null | .bool _, .num _ | .bool _, .str _ | .bool _, .arr _ | .bool _, .obj _
  | .num _, .null | .num _, .bool _ | .num _, .str _ | .num _, .arr _ | .num _, .obj _
  | .str _, .null | .str _, .bool _ | .str _, .num _ | .str _, .arr _ | .str _, .obj _
  | .arr _, .null | .arr _, .bool _ | .arr _, .num _ | .arr _, .str _ | .arr _, .obj _
  | .obj _, .null | .obj _, .bool _ | .obj _, .num _ | .obj _, .str _ | .obj _, .arr _ =>
      .isFalse (fun h => Json.noConfusion h)

def Json.decEqArr : (xs ys : List Json) → Decidable (xs = ys)
  | [], [] => .isTrue rfl
  | [], _ :: _ => .isFalse (fun h => List.noConfusion h)
  | _ :: _, [] => .isFalse (fun h => List.noConfusion h)
  | x :: xs, y :: ys =>
      match Json.decEq x y, Json.decEqArr xs ys with
      | .isTrue h1, .isTrue h2 => .isTrue (by rw [h1, h2])
      | .isFalse h1, _ => .isFalse (fun hh => h1 (by injection hh))
      | _, .isFalse h2 => .isFalse (fun hh => h2 (by injection hh))

def Json.decEqObj : (xs ys : List (String × Json)) → Decidable (xs = ys)
  | [], [] => .isTrue rfl
  | [], _ :: _ => .isFalse (fun h => List.noConfusion h)
  | _ :: _, [] => .isFalse (fun h => List.noConfusion h)
  | (k1, v1) :: xs, (k2, v2) :: ys =>
      match String.decEq k1 k2, Json.decEq v1 v2, Json.decEqObj xs ys with
      | .isTrue hk, .isTrue hv, .isTrue ht => .isTrue (by rw [hk, hv, ht])
      | .isFalse hk, _, _ =>
          .isFalse (fun hh => hk (by injection hh with h1 h2; injection h1))
      | _, .isFalse hv, _ =>
          .isFalse (fun hh => hv (by injection hh with h1 h2; injection h1))
      | _, _, .isFalse ht => .isFalse (fun hh => ht (by injection hh))

end

instance : DecidableEq Json := Json.decEq

def exceptDecEq {ε α : Type} [DecidableEq ε] [DecidableEq α] :
    (a b : Except ε α) → Decidable (a = b)
  | .error e1, .error e2 =>
      if h : e1 = e2 then .isTrue (by rw [h]) else .isFalse (fun hh => h (Except.error.inj hh))
  | .ok a1, .ok a2 =>
      if h : a1 = a2 then .isTrue (by rw [h]) else .isFalse (fun hh => h (Except.ok.inj hh))
  | .error _, .ok _ => .isFalse (fun h => Except.noConfusion h)
  | .ok _, .error _ => .isFalse (fun h => Except.noConfusion h)

instance {ε α : Type} [DecidableEq ε] [DecidableEq α] : DecidableEq (Except ε α) :=
  exceptDecEq

/-- A Python dict with string keys, as used for every record of the connector. -/
abbrev JDict := List (String × Json)

/-- First-match association lookup, `none` when the key is absent
(Python dicts have unique keys, so first-match is exact). -/
def jLookup : JDict → String → Option Json
  | [], _ => none
  | (k, v) :: rest, key => if k = key then some v else jLookup rest key

/-- Python truthiness of an embedded value: `None`, `False`, `0`, `""`,
`[]` and `\x7b\x7d` are falsy, everything else truthy. -/
def Json.truthy : Json → Bool
  | .null => false
  | .bool b => b
  | .num n => decide (n ≠ 0)
  | .str s => decide (s ≠ "")
  | .arr xs => decide (xs ≠ [])
  | .obj kvs => decide (kvs ≠ [])

/-- Python `d.get(key, dflt)`: the stored value when the key is present
(even if that value is null), else the default. -/
def pyGetD (kvs : JDict) (key : String) (dflt : Json) : Json :=
  (jLookup kvs key).getD dflt

/-- Python `d.get(key)`: default `None`. -/
def pyGet (kvs : JDict) (key : String) : Json :=
  pyGetD kvs key Json.null

/-- Viewing a value as a dict; a `.get` attribute access on anything else
raises (`AttributeError`). -/
def asDict : Json → Except Unit JDict
  | .obj kvs => .ok kvs
  | _ => .error ()

/-- Python iteration over a value: lists yield their elements, strings their
one-character substrings, dicts their keys; numbers, booleans and `None` are
not iterable and raise (`TypeError`). -/
def pyIter : Json → Except Unit (List Json)
  | .arr xs => .ok xs
  | .str s => .ok (s.data.map (fun c => Json.str (String.mk [c])))
  | .obj kvs => .ok (kvs.map (fun kv => Json.str kv.1))
  | _ => .error ()

/-- Python `len`: defined for strings, lists and dicts, raises otherwise. -/
def pyLen : Json → Except Unit Nat
  | .str s => .ok s.length
  | .arr xs => .ok xs.length
  | .obj kvs => .ok kvs.length
  | _ => .error ()

/-- `next((d['value'] for d in descriptions if d.get('lang') == 'en'), '')`:
lazily scan the description items; each item inspected must be a dict
(else `AttributeError`); at the first item whose `lang` equals `"en"`, index
`['value']` (`KeyError` when absent); default is the empty string. -/
def firstEnglish : List Json → Except Unit Json
  | [] => .ok (Json.str "")
  | d :: rest =>
    match d with
    | .obj dk =>
      match pyGet dk "lang" with
      | .str s =>
        if s = "en" then
          match jLookup dk "value" with
          | some v => .ok v
          | none => .error ()
        else firstEnglish rest
      | _ => firstEnglish rest
    | _ => .error ()

/-- `cvss_v3[0].get('cvssData', \x7b\x7d).get(key) if cvss_v3 else None`:
`None` when `cvss_v3` is falsy; otherwise index element 0 (which must exist
and support `.get`, i.e. the value must be a non-empty list of dicts, else the
expression raises), take its `cvssData` sub-dict (default empty dict, raise if
the stored value is not a dict), and `.get` the requested key. -/
def cvssField (v3 : Json) (key : String) : Except Unit Json :=
  if v3.truthy then
    match v3 with
    | .arr (x :: _) =>
      match x with
      | .obj xk =>
        match pyGetD xk "cvssData" (Json.obj []) with
        | .obj cd => .ok (pyGet cd key)
        | _ => .error ()
      | _ => .error ()
    | _ => .error ()
  else
    .ok Json.null

/-- `ref.get('url', '')` for one reference item: the item must be a dict. -/
def refUrl (ref : Json) : Except Unit Json :=
  match ref with
  | .obj rk => .ok (pyGetD rk "url" (Json.str ""))
  | _ => .error ()

/-- `[ref.get('url', '') for ref in references]`. -/
def referenceUrls (references : Json) : Except Unit (List Json) := do
  let items ← pyIter references
  items.mapM refUrl

/-- Inner body of the CWE loop: for one description item `desc`, append
`desc.get('value', '')` when `desc.get('lang') == 'en'`; `desc` must be a
dict. -/
def cweFromDesc (acc : List Json) (d : Json) : Except Unit (List Json) :=
  match d with
  | .obj dk =>
    match pyGet dk "lang" with
    | .str s => if s = "en" then .ok (acc ++ [pyGetD dk "value" (Json.str "")]) else .ok acc
    | _ => .ok acc
  | _ => .error ()

/-- Outer body of the CWE loop: iterate `weakness.get('description', [])`;
`weakness` must be a dict. -/
def cweFromWeakness (acc : List Json) (w : Json) : Except Unit (List Json) :=
  match w with
  | .obj wk => do
    let descs ← pyIter (pyGetD wk "description" (Json.arr []))
    descs.foldlM cweFromDesc acc
  | _ => .error ()

/-- The CWE extraction loop of `transform_data` over `cve.get('weaknesses', [])`. -/
def cweIds (weaknesses : Json) : Except Unit (List Json) := do
  let ws ← pyIter weaknesses
  ws.foldlM cweFromWeakness []

/-- The third quality check's value, `cve.get('metrics', \x7b\x7d).get('cvssMetricV31')`:
raises when the stored `metrics` value is not a dict. -/
def metricsCvssV31 (cve : JDict) : Except Unit Json :=
  match pyGetD cve "metrics" (Json.obj []) with
  | .obj m => .ok (pyGet m "cvssMetricV31")
  | _ => .error ()

/-- Number of the four quality checks that pass (`m` is the already-fetched
value of the third check): `cve.get('id')`, `cve.get('descriptions')`,
`cve.get('metrics', \x7b\x7d).get('cvssMetricV31')`, `cve.get('references')`,
each tested for truthiness. -/
def qualityNumerator (cve : JDict) (m : Json) : ℕ :=
  (if (pyGet cve "id").truthy then 1 else 0)
  + (if (pyGet cve "descriptions").truthy then 1 else 0)
  + (if m.truthy then 1 else 0)
  + (if (pyGet cve "references").truthy then 1 else 0)

/-- `NVDETLConnector._calculate_cve_quality`: starting from `0.0`, add `0.25`
for each passing check.  The `0.25` steps are exact in floating point, so the
result is exactly (number of passing checks)/4, which is how we form the
rational (a single `mkRat`, keeping the value kernel-computable).  The third
check raises when `metrics` is present but not a dict; the running sum is
then discarded, so the checks are gathered after that single fallible step. -/
def calculateCveQuality (cve : JDict) : Except Unit ℚ := do
  let m ← metricsCvssV31 cve
  pure (mkRat (qualityNumerator cve m) 4)

/-- `NVDETLConnector._is_recent_cve`: falsy input returns `False`; a truthy
string is parsed (after replacing `"Z"` by `"+00:00"`) and compared against
`now - timedelta(days=30)`; every raised exception (parse failure, naive
datetime comparison, `.replace` on a non-string) is swallowed by the bare
`except` and yields `False`. -/
def isRecentCve (parseIso : String → Option Int) (now : Int) (published : Json) : Bool :=
  match published with
  | .str s =>
    if s = "" then false
    else
      match parseIso (s.replace "Z" "+00:00") with
      | some t => decide (t > now - 30 * 86400)
      | none => false
  | _ => false

/-- `NVDETLConnector._map_severity_to_level`: `severity_map.get(severity, 0)`.
A list- or dict-valued key is unhashable and raises `TypeError`; every other
value is looked up in the map and defaults to `0`. -/
def mapSeverityToLevel : Json → Except Unit Int
  | .arr _ => .error ()
  | .obj _ => .error ()
  | .str s =>
      if s = "LOW" then .ok 1
      else if s = "MEDIUM" then .ok 2
      else if s = "HIGH" then .ok 3
      else if s = "CRITICAL" then .ok 4
      else .ok 0
  | _ => .ok 0

/-- The spec's severity table: `"LOW","MEDIUM","HIGH","CRITICAL"` map to
`1,2,3,4` and everything else to `0`.  Stated from the spec's words, for
comparison with `mapSeverityToLevel`. -/
def severityLevelSpec : Json → Int
  | .str s =>
      if s = "LOW" then 1
      else if s = "MEDIUM" then 2
      else if s = "HIGH" then 3
      else if s = "CRITICAL" then 4
      else 0
  | _ => 0

/-- Whether a value may be used as a Python dict key (hashable): everything
except lists and dicts. -/
def jsonKeyHashable : Json → Bool
  | .arr _ => false
  | .obj _ => false
  | _ => true

/-- The `etl_metadata` block attached to every transformed record. -/
structure EtlMetadata where
  ingestion_timestamp : Int
  source : String
  version : String
  record_id : Json
  data_quality_score : ℚ
deriving DecidableEq

/-- The transformed record built by `transform_data` (the Mongo document). -/
structure TransformedRecord where
  original_data : Json
  etl_metadata : EtlMetadata
  cve_id : Json
  description : Json
  published_date : Json
  last_modified : Json
  cvss_score : Json
  cvss_severity : Json
  reference_count : Nat
  reference_urls : List Json
  cwe_ids : List Json
  has_cvss_score : Bool
  is_recent : Bool
  description_length : Nat
  severity_level : Int
deriving DecidableEq

/-- The body of `transform_data`'s per-record `try` block: build one
transformed record from one raw record, `Except.error` on any raised
exception (then the record is skipped). `ts` is the batch-wide
`current_timestamp`, `now` the clock read inside `_is_recent_cve`. -/
def transformRecord (parseIso : String → Option Int) (now ts : Int)
    (cveRecord : Json) : Except Unit TransformedRecord := do
  let recd ← asDict cveRecord
  let cve ← asDict (pyGetD recd "cve" (Json.obj []))
  let cveId := pyGetD cve "id" (Json.str "unknown")
  let descItems ← pyIter (pyGetD cve "descriptions" (Json.arr []))
  let englishDesc ← firstEnglish descItems
  let metricsD ← asDict (pyGetD cve "metrics" (Json.obj []))
  let v3 := pyGetD metricsD "cvssMetricV31" (Json.arr [])
  let cvssScore ← cvssField v3 "baseScore"
  let cvssSeverity ← cvssField v3 "baseSeverity"
  let refUrlsAll ← referenceUrls (pyGetD cve "references" (Json.arr []))
  let cwes ← cweIds (pyGetD cve "weaknesses" (Json.arr []))
  let quality ← calculateCveQuality cve
  let severityLevel ← mapSeverityToLevel cvssSeverity
  let descLen ← pyLen englishDesc
  pure {
    original_data := cveRecord
    etl_metadata := {
      ingestion_timestamp := ts
      source := "nvd_cve_feed"
      version := "1.0"
      record_id := cveId
      data_quality_score := quality }
    cve_id := cveId
    description := englishDesc
    published_date := pyGet cve "published"
    last_modified := pyGet cve "lastModified"
    cvss_score := cvssScore
    cvss_severity := cvssSeverity
    reference_count := refUrlsAll.length
    reference_urls := refUrlsAll.take 10
    cwe_ids := cwes
    has_cvss_score := decide (cvssScore ≠ Json.null)
    is_recent := isRecentCve parseIso now (pyGet cve "published")
    description_length := descLen
    severity_level := severityLevel }

/-- `NVDETLConnector.transform_data`: per-record transform with the
`try/except/continue` loop — failed records are skipped, the rest kept in
order. -/
def transformData (parseIso : String → Option Int) (now ts : Int)
    (rawData : List Json) : List TransformedRecord :=
  rawData.filterMap (fun r => (transformRecord parseIso now ts r).toOption)

/-- One `collection.replace_one(\x7b'cve_id': record['cve_id']\x7d, record, upsert=True)`
against a store modelled as a document list: replace the first document whose
`cve_id` matches, else append.  The second component is `upserted_id`
non-null (inserted), the third `modified_count > 0` (an existing document was
replaced by different content). -/
def replaceOne : List TransformedRecord → TransformedRecord →
    List TransformedRecord × Bool × Bool
  | [], r => ([r], true, false)
  | d :: ds, r =>
    if d.cve_id = r.cve_id then (r :: ds, false, decide (d ≠ r))
    else
      let t := replaceOne ds r
      (d :: t.1, t.2.1, t.2.2)

/-- Result of `load_data`: its boolean return value, the store contents, and
the inserted/updated counters it logs. -/
structure LoadResult where
  success : Bool
  store : List TransformedRecord
  insertedCount : Nat
  updatedCount : Nat
deriving DecidableEq

/-- The per-record loop of `load_data`. -/
def loadGo : List TransformedRecord → List TransformedRecord → Nat → Nat →
    List TransformedRecord × Nat × Nat
  | store, [], ins, upd => (store, ins, upd)
  | store, r :: rest, ins, upd =>
    let t := replaceOne store r
    loadGo t.1 rest (if t.2.1 then ins + 1 else ins) (if t.2.2 then upd + 1 else upd)

/-- `NVDETLConnector.load_data` over the list-modelled store: an empty batch
returns `True` immediately (before any index creation or write); otherwise
each record is upserted by `cve_id` and the counters accumulated. -/
def loadData (store : List TransformedRecord) (docs : List TransformedRecord) : LoadResult :=
  if docs.isEmpty then
    { success := true, store := store, insertedCount := 0, updatedCount := 0 }
  else
    let t := loadGo store docs 0 0
    { success := true, store := t.1, insertedCount := t.2.1, updatedCount := t.2.2 }

/-- First stored document with the given `cve_id` (the match found by
`replace_one`'s filter). -/
def findCve : List TransformedRecord → Json → Option TransformedRecord
  | [], _ => none
  | d :: ds, c => if d.cve_id = c then some d else findCve ds c

/-- The stages `run_etl_pipeline` can attempt, in pipeline order. -/
inductive Stage where
  | connecting
  | extracting
  | transforming
  | loading
deriving DecidableEq

/-- `NVDETLConnector.run_etl_pipeline`: connect, extract, transform, load, in
that order, returning `False` as soon as a stage fails or produces an empty
result.  The stage effects are passed as capabilities: `connectOk` is the
outcome of `connect_to_mongodb`, `rawData` the extraction result (`[]` both
for a failed and for an empty extraction, as `extract_data` returns `[]` on
every failure), `transform` the transform stage (instantiated by
`transformData` in the real connector) and `load` the load stage's boolean
outcome.  The second component records which stages were attempted. -/
def runEtlPipeline (connectOk : Bool) (rawData : List Json)
    (transform : List Json → List TransformedRecord)
    (load : List TransformedRecord → Bool) : Bool × List Stage :=
  if !connectOk then (false, [Stage.connecting])
  else if rawData.isEmpty then (false, [Stage.connecting, Stage.extracting])
  else
    let docs := transform rawData
    if docs.isEmpty then
      (false, [Stage.connecting, Stage.extracting, Stage.transforming])
    else if !load docs then
      (false, [Stage.connecting, Stage.extracting, Stage.transforming, Stage.loading])
    else
      (true, [Stage.connecting, Stage.extracting, Stage.transforming, Stage.loading])

/-- The concrete raw record of end-to-end scenario B: an id and one
reference are present, the localized description list is empty (hence no
English description) and there are no CVSS metrics. -/
def scenarioBRecord (i u : String) : Json :=
  Json.obj [("cve", Json.obj [
    ("id", Json.str i),
    ("descriptions", Json.arr []),
    ("references", Json.arr [Json.obj [("url", Json.str u)]])])]

/-- All four required fields of the quality score are absent or empty
(falsy), the third being the fetched `cvssMetricV31` value. -/
def requiredFieldsAllFalsy (cve : JDict) : Prop :=
  (pyGet cve "id").truthy = false ∧
  (pyGet cve "descriptions").truthy = false ∧
  (∃ m, metricsCvssV31 cve = Except.ok m ∧ m.truthy = false) ∧
  (pyGet cve "references").truthy = false

/-- All four required fields of the quality score are present and non-empty
(truthy). -/
def requiredFieldsAllTruthy (cve : JDict) : Prop :=
  (pyGet cve "id").truthy = true ∧
  (pyGet cve "descriptions").truthy = true ∧
  (∃ m, metricsCvssV31 cve = Except.ok m ∧ m.truthy = true) ∧
  (pyGet cve "references").truthy = true

/-- A concrete transformed document used to exercise the load stage. -/
def sampleDoc : TransformedRecord := {
  original_data := Json.null
  etl_metadata := {
    ingestion_timestamp := 0
    source := "nvd_cve_feed"
    version := "1.0"
    record_id := Json.str "CVE-2024-0001"
    data_quality_score := 0 }
  cve_id := Json.str "CVE-2024-0001"
  description := Json.str ""
  published_date := Json.null
  last_modified := Json.null
  cvss_score := Json.null
  cvss_severity := Json.null
  reference_count := 0
  reference_urls := []
  cwe_ids := []
  has_cvss_score := false
  is_recent := false
  description_length := 0
  severity_level := 0 }

/-- The transformed document produced for a raw record whose `cve` object is
empty (in particular: no `id`). -/
def unknownIdDoc : TransformedRecord := {
  original_data := Json.obj [("cve", Json.obj [])]
  etl_metadata := { ingestion_timestamp := 5, source := "nvd_cve_feed", version := "1.0",
                    record_id := Json.str "unknown", data_quality_score := 0 }
  cve_id := Json.str "unknown"
  description := Json.str ""
  published_date := Json.null
  last_modified := Json.null
  cvss_score := Json.null
  cvss_severity := Json.null
  reference_count := 0
  reference_urls := []
  cwe_ids := []
  has_cvss_score := false
  is_recent := false
  description_length := 0
  severity_level := 0 }

theorem exceptBind_eq_match {ε α β : Type} (x : Except ε α) (f : α → Except ε β) :
    (x >>= f) = match x with | .error e => .error e | .ok a => f a := by
  cases x <;> rfl

theorem exceptBind_ok {ε α β : Type} (a : α) (f : α → Except ε β) :
    ((Except.ok a : Except ε α) >>= f) = f a := rfl

theorem exceptBind_error {ε α β : Type} (e : ε) (f : α → Except ε β) :
    ((Except.error e : Except ε α) >>= f) = Except.error e := rfl

/-- C7: calling the load stage with an empty document list succeeds, writes
nothing (the store is unchanged) and reports zero inserted and updated
documents. -/
theorem load_data_empty_trivial_success (store : List TransformedRecord) :
    loadData store [] =
      { success := true, store := store, insertedCount := 0, updatedCount := 0 } := rfl

/-- C3 counterexample: on a list-valued severity the code does not return
level `0`; the dict lookup `severity_map.get(severity, 0)` raises
`TypeError` (unhashable key), so the claim's "every other input maps to 0"
fails at this input. -/
theorem severity_unhashable_counterexample :
    mapSeverityToLevel (Json.arr []) = Except.error () ∧
    ∀ k : Int, mapSeverityToLevel (Json.arr []) ≠ Except.ok k := by
  refine ⟨rfl, ?_⟩
  intro k h
  cases h

/-- C3 amended: for every hashable severity value (everything except lists
and dicts, in particular including `None`/null, booleans, numbers and all
strings) the mapping returns exactly the spec's table: `"LOW"`, `"MEDIUM"`,
`"HIGH"`, `"CRITICAL"` to `1`, `2`, `3`, `4` and everything else to `0`;
list- and dict-valued inputs instead raise. -/
theorem severity_mapping_amended (j : Json) (h : jsonKeyHashable j = true) :
    mapSeverityToLevel j = Except.ok (severityLevelSpec j) := by
  cases j with
  | null => rfl
  | bool b => rfl
  | num n => rfl
  | str s =>
      simp only [mapSeverityToLevel, severityLevelSpec]
      by_cases h1 : s = "LOW"
      · simp [h1]
      · by_cases h2 : s = "MEDIUM"
        · simp [h1, h2]
        · by_cases h3 : s = "HIGH"
          · simp [h1, h2, h3]
          · by_cases h4 : s = "CRITICAL" <;> simp [h1, h2, h3, h4]
  | arr xs => simp [jsonKeyHashable] at h
  | obj kvs => simp [jsonKeyHashable] at h

/-- C3 amended, witness at the four mapped strings and two defaulted inputs. -/
theorem severity_mapping_amended_witness :
    mapSeverityToLevel (Json.str "LOW") = Except.ok (severityLevelSpec (Json.str "LOW")) ∧
    mapSeverityToLevel (Json.str "MEDIUM") = Except.ok (severityLevelSpec (Json.str "MEDIUM")) ∧
    mapSeverityToLevel (Json.str "HIGH") = Except.ok (severityLevelSpec (Json.str "HIGH")) ∧
    mapSeverityToLevel (Json.str "CRITICAL") = Except.ok (severityLevelSpec (Json.str "CRITICAL")) ∧
    mapSeverityToLevel Json.null = Except.ok (severityLevelSpec Json.null) ∧
    mapSeverityToLevel (Json.str "normal") = Except.ok (severityLevelSpec (Json.str "normal")) :=
  ⟨severity_mapping_amended (Json.str "LOW") (by decide),
   severity_mapping_amended (Json.str "MEDIUM") (by decide),
   severity_mapping_amended (Json.str "HIGH") (by decide),
   severity_mapping_amended (Json.str "CRITICAL") (by decide),
   severity_mapping_amended Json.null (by decide),
   severity_mapping_amended (Json.str "normal") (by decide)⟩

/-- C4: the recency classifier is a total boolean function; for any clock
`now` and any embedding `parseIso` of `datetime.fromisoformat`, (1) an absent
published value (Python `None`) yields `false`; (2) a string parsing to
exactly 31 days before `now` yields `false`; (3) a non-empty string parsing
to exactly 29 days before `now` yields `true`; (4) a malformed string (parse
failure, incl. naive datetimes whose comparison raises) yields `false`;
(5) any non-string published value yields `false`; none of these raise. -/
theorem recency_boundaries (parseIso : String → Option Int) (now : Int) :
    isRecentCve parseIso now Json.null = false ∧
    (∀ s : String, parseIso (s.replace "Z" "+00:00") = some (now - 31 * 86400) →
      isRecentCve parseIso now (Json.str s) = false) ∧
    (∀ s : String, s ≠ "" → parseIso (s.replace "Z" "+00:00") = some (now - 29 * 86400) →
      isRecentCve parseIso now (Json.str s) = true) ∧
    (∀ s : String, parseIso (s.replace "Z" "+00:00") = none →
      isRecentCve parseIso now (Json.str s) = false) ∧
    (∀ j : Json, (∀ s : String, j ≠ Json.str s) → isRecentCve parseIso now j = false) := by
  refine ⟨rfl, ?_, ?_, ?_, ?_⟩
  · intro s hp
    simp only [isRecentCve]
    split
    · rfl
    · rw [hp]
      simp only [decide_eq_false_iff_not]
      omega
  · intro s hs hp
    simp only [isRecentCve]
    rw [if_neg hs, hp]
    simp only [decide_eq_true_eq]
    omega
  · intro s hp
    simp only [isRecentCve]
    split
    · rfl
    · rw [hp]
  · intro j hj
    cases j with
    | str s => exact absurd rfl (hj s)
    | null => rfl
    | bool b => rfl
    | num n => rfl
    | arr xs => rfl
    | obj kvs => rfl

/-- C4 witness: concrete clocks and parse functions exercising the 31-day,
29-day, absent and malformed cases. -/
theorem recency_boundaries_witness :
    isRecentCve (fun _ => some 0) (31 * 86400) (Json.str "a") = false ∧
    isRecentCve (fun _ => some 0) (29 * 86400) (Json.str "a") = true ∧
    isRecentCve (fun _ => none) 0 (Json.str "not-a-date") = false ∧
    isRecentCve (fun _ => some 0) 0 Json.null = false ∧
    isRecentCve (fun _ => some 0) 0 (Json.num 7) = false :=
  ⟨(recency_boundaries (fun _ => some 0) (31 * 86400)).2.1 "a" (by decide),
   (recency_boundaries (fun _ => some 0) (29 * 86400)).2.2.1 "a" (by decide) (by decide),
   (recency_boundaries (fun _ => none) 0).2.2.2.1 "not-a-date" rfl,
   (recency_boundaries (fun _ => some 0) 0).1,
   (recency_boundaries (fun _ => some 0) 0).2.2.2.2 (Json.num 7) (fun s h => by cases h)⟩

/-- C6: a record whose transform raises is skipped and the rest of the batch
is still transformed, in order: for any batch split around a failing record,
the output is exactly the concatenation of the transforms of the two
surrounding sub-batches. -/
theorem transform_skips_failing_record (parseIso : String → Option Int) (now ts : Int)
    (bad : Json) (xs ys : List Json)
    (hbad : transformRecord parseIso now ts bad = Except.error ()) :
    transformData parseIso now ts (xs ++ bad :: ys) =
      transformData parseIso now ts xs ++ transformData parseIso now ts ys := by
  simp [transformData, List.filterMap_append, List.filterMap_cons, hbad, Except.toOption]

/-- C6 witness: a non-dict raw record (a bare string raises `AttributeError`
on `.get`) is skipped while the surrounding records survive. -/
theorem transform_skips_failing_record_witness :
    transformData (fun _ => none) 0 0
        ([Json.obj [("cve", Json.obj [])]] ++ Json.str "oops" :: [Json.obj []]) =
      transformData (fun _ => none) 0 0 [Json.obj [("cve", Json.obj [])]] ++
        transformData (fun _ => none) 0 0 [Json.obj []] :=
  transform_skips_failing_record (fun _ => none) 0 0 (Json.str "oops")
    [Json.obj [("cve", Json.obj [])]] [Json.obj []] (by decide)

/-- C8: the orchestrator is strictly sequential and short-circuits: a failed
connection attempts nothing further; an empty extraction stops before
transform and load; an empty transform stops before load; a failed load
yields failure after all four stages; and only a full pass returns success.
The attempted-stage trace pins down exactly which stages ran. -/
theorem pipeline_short_circuit (connectOk : Bool) (rawData : List Json)
    (transform : List Json → List TransformedRecord)
    (load : List TransformedRecord → Bool) :
    (connectOk = false →
      runEtlPipeline connectOk rawData transform load = (false, [Stage.connecting])) ∧
    (connectOk = true → rawData = [] →
      runEtlPipeline connectOk rawData transform load =
        (false, [Stage.connecting, Stage.extracting])) ∧
    (connectOk = true → rawData ≠ [] → transform rawData = [] →
      runEtlPipeline connectOk rawData transform load =
        (false, [Stage.connecting, Stage.extracting, Stage.transforming])) ∧
    (connectOk = true → rawData ≠ [] → transform rawData ≠ [] →
        load (transform rawData) = false →
      runEtlPipeline connectOk rawData transform load =
        (false, [Stage.connecting, Stage.extracting, Stage.transforming, Stage.loading])) ∧
    (connectOk = true → rawData ≠ [] → transform rawData ≠ [] →
        load (transform rawData) = true →
      runEtlPipeline connectOk rawData transform load =
        (true, [Stage.connecting, Stage.extracting, Stage.transforming, Stage.loading])) := by
  refine ⟨?_, ?_, ?_, ?_, ?_⟩
  · intro h; simp [runEtlPipeline, h]
  · intro h he; simp [runEtlPipeline, h, he]
  · intro h he ht; simp [runEtlPipeline, h, he, ht]
  · intro h he ht hl; simp [runEtlPipeline, h, he, ht, hl]
  · intro h he ht hl; simp [runEtlPipeline, h, he, ht, hl]

/-- C8 witness: every short-circuit branch exercised at concrete stage
outcomes. -/
theorem pipeline_short_circuit_witness :
    runEtlPipeline false [Json.null] (fun _ => [sampleDoc]) (fun _ => true) =
      (false, [Stage.connecting]) ∧
    runEtlPipeline true [] (fun _ => [sampleDoc]) (fun _ => true) =
      (false, [Stage.connecting, Stage.extracting]) ∧
    runEtlPipeline true [Json.null] (fun _ => []) (fun _ => true) =
      (false, [Stage.connecting, Stage.extracting, Stage.transforming]) ∧
    runEtlPipeline true [Json.null] (fun _ => [sampleDoc]) (fun _ => false) =
      (false, [Stage.connecting, Stage.extracting, Stage.transforming, Stage.loading]) ∧
    runEtlPipeline true [Json.null] (fun _ => [sampleDoc]) (fun _ => true) =
      (true, [Stage.connecting, Stage.extracting, Stage.transforming, Stage.loading]) :=
  ⟨(pipeline_short_circuit false [Json.null] (fun _ => [sampleDoc]) (fun _ => true)).1 rfl,
   (pipeline_short_circuit true [] (fun _ => [sampleDoc]) (fun _ => true)).2.1 rfl rfl,
   (pipeline_short_circuit true [Json.null] (fun _ => []) (fun _ => true)).2.2.1 rfl
     (by simp) rfl,
   (pipeline_short_circuit true [Json.null] (fun _ => [sampleDoc]) (fun _ => false)).2.2.2.1 rfl
     (by simp) (by simp) rfl,
   (pipeline_short_circuit true [Json.null] (fun _ => [sampleDoc]) (fun _ => true)).2.2.2.2 rfl
     (by simp) (by simp) rfl⟩

/-- For any raw record successfully transformed, the resulting document
carries the batch timestamp, the fixed source and version tags, the raw
record as audit copy, and (relative to the record's `cve` sub-dict) the
defaulted id in both `cve_id` and `etl_metadata.record_id`. -/
theorem transformRecord_ok_fields (parseIso : String → Option Int) (now ts : Int)
    (r : Json) (d : TransformedRecord)
    (h : transformRecord parseIso now ts r = Except.ok d) :
    d.etl_metadata.ingestion_timestamp = ts ∧
    d.etl_metadata.source = "nvd_cve_feed" ∧
    d.etl_metadata.version = "1.0" ∧
    d.original_data = r ∧
    (∀ recd cve : JDict, asDict r = Except.ok recd →
      asDict (pyGetD recd "cve" (Json.obj [])) = Except.ok cve →
      d.cve_id = pyGetD cve "id" (Json.str "unknown") ∧
      d.etl_metadata.record_id = pyGetD cve "id" (Json.str "unknown")) := by
  unfold transformRecord at h
  simp only [exceptBind_eq_match] at h
  repeat' split at h
  any_goals exact Except.noConfusion h
  · injection h with h
    subst h
    refine ⟨rfl, rfl, rfl, rfl, ?_⟩
    intro recd1 cve1 hr hc
    simp_all

/-- C10: every document produced by one invocation of the transform stage
carries the same `etl_metadata.ingestion_timestamp`, namely the batch-wide
`current_timestamp` computed once before the per-record loop. -/
theorem ingestion_timestamp_shared (parseIso : String → Option Int) (now ts : Int)
    (rawData : List Json) (d : TransformedRecord)
    (hd : d ∈ transformData parseIso now ts rawData) :
    d.etl_metadata.ingestion_timestamp = ts := by
  simp only [transformData, List.mem_filterMap] at hd
  obtain ⟨r, hr, hro⟩ := hd
  cases he : transformRecord parseIso now ts r with
  | error e => rw [he] at hro; cases hro
  | ok x =>
      rw [he] at hro
      simp only [Except.toOption, Option.some.injEq] at hro
      subst hro
      exact (transformRecord_ok_fields parseIso now ts r _ he).1

/-- C10 witness: a concrete batch transformed at timestamp `5`. -/
theorem ingestion_timestamp_shared_witness :
    unknownIdDoc.etl_metadata.ingestion_timestamp = 5 :=
  ingestion_timestamp_shared (fun _ => none) 0 5 [Json.obj [("cve", Json.obj [])]]
    unknownIdDoc (by decide)

/-- C9: when the raw record's `cve` object has no `id` key, the transform
still produces a document whose `cve_id` and `etl_metadata.record_id` are the
sentinel `"unknown"`, and that document is kept in the transform output
(passed through to the load stage) rather than dropped. -/
theorem missing_id_sentinel_passthrough (parseIso : String → Option Int) (now ts : Int)
    (cveFields : JDict) (d : TransformedRecord)
    (hid : jLookup cveFields "id" = none)
    (hok : transformRecord parseIso now ts (Json.obj [("cve", Json.obj cveFields)]) =
      Except.ok d) :
    d.cve_id = Json.str "unknown" ∧
    d.etl_metadata.record_id = Json.str "unknown" ∧
    ∀ xs ys : List Json,
      transformData parseIso now ts (xs ++ Json.obj [("cve", Json.obj cveFields)] :: ys) =
        transformData parseIso now ts xs ++ d :: transformData parseIso now ts ys := by
  have hf := transformRecord_ok_fields parseIso now ts _ d hok
  have h5 := hf.2.2.2.2 [("cve", Json.obj cveFields)] cveFields rfl rfl
  have hid2 : pyGetD cveFields "id" (Json.str "unknown") = Json.str "unknown" := by
    simp [pyGetD, hid]
  refine ⟨by rw [h5.1, hid2], by rw [h5.2, hid2], ?_⟩
  intro xs ys
  simp [transformData, List.filterMap_append, List.filterMap_cons, hok, Except.toOption]

/-- C9 witness: the empty `cve` object, transformed alone. -/
theorem missing_id_sentinel_passthrough_witness :
    unknownIdDoc.cve_id = Json.str "unknown" ∧
    unknownIdDoc.etl_metadata.record_id = Json.str "unknown" ∧
    transformData (fun _ => none) 0 5 ([] ++ Json.obj [("cve", Json.obj [])] :: []) =
      transformData (fun _ => none) 0 5 [] ++
        unknownIdDoc :: transformData (fun _ => none) 0 5 [] := by
  have h := missing_id_sentinel_passthrough (fun _ => none) 0 5 [] unknownIdDoc rfl (by decide)
  exact ⟨h.1, h.2.1, h.2.2 [] []⟩

/-- C2: transforming a vulnerability record with an id and one reference but
an empty description list and no CVSS metrics yields exactly one document
with `description = ""`, `cvss_score = null`, `has_cvss_score = false`,
`severity_level = 0` and `quality_score = 1/2` (only the id and references
checks pass). -/
theorem transform_scenario_b (parseIso : String → Option Int) (now ts : Int)
    (i u : String) (hi : i ≠ "") :
    transformData parseIso now ts [scenarioBRecord i u] = [{
      original_data := scenarioBRecord i u
      etl_metadata := { ingestion_timestamp := ts, source := "nvd_cve_feed", version := "1.0",
                        record_id := Json.str i, data_quality_score := mkRat 1 2 }
      cve_id := Json.str i
      description := Json.str ""
      published_date := Json.null
      last_modified := Json.null
      cvss_score := Json.null
      cvss_severity := Json.null
      reference_count := 1
      reference_urls := [Json.str u]
      cwe_ids := []
      has_cvss_score := false
      is_recent := false
      description_length := 0
      severity_level := 0 }] := by
  simp [transformData, transformRecord, scenarioBRecord, asDict, pyGetD, pyGet, jLookup,
        pyIter, firstEnglish, cvssField, referenceUrls, refUrl, cweIds, Json.truthy,
        calculateCveQuality, metricsCvssV31, qualityNumerator, mapSeverityToLevel,
        isRecentCve, pyLen, Except.toOption, hi, List.mapM, List.mapM.loop, List.foldlM,
        exceptBind_eq_match, Except.map, Functor.map, List.filterMap_cons, List.filterMap_nil,
        pure, Except.pure]
  norm_num [Rat.mkRat_eq_div]

/-- C2 witness: the scenario at a concrete CVE id and reference URL. -/
theorem transform_scenario_b_witness :
    transformData (fun _ => none) 0 0
        [scenarioBRecord "CVE-2024-0001" "https://example.org"] = [{
      original_data := scenarioBRecord "CVE-2024-0001" "https://example.org"
      etl_metadata := { ingestion_timestamp := 0, source := "nvd_cve_feed", version := "1.0",
                        record_id := Json.str "CVE-2024-0001", data_quality_score := mkRat 1 2 }
      cve_id := Json.str "CVE-2024-0001"
      description := Json.str ""
      published_date := Json.null
      last_modified := Json.null
      cvss_score := Json.null
      cvss_severity := Json.null
      reference_count := 1
      reference_urls := [Json.str "https://example.org"]
      cwe_ids := []
      has_cvss_score := false
      is_recent := false
      description_length := 0
      severity_level := 0 }] :=
  transform_scenario_b (fun _ => none) 0 0 "CVE-2024-0001" "https://example.org" (by decide)

/-- C1: whenever the quality scorer returns (it can only raise when the
stored `metrics` value is not a dict), the score is in `[0, 1]`; if all four
required fields are absent or empty (falsy) the score is `0`, and if all
four are present and non-empty (truthy) the score is `1`. -/
theorem quality_score_range (cve : JDict) (q : ℚ)
    (h : calculateCveQuality cve = Except.ok q) :
    0 ≤ q ∧ q ≤ 1 ∧
    (requiredFieldsAllFalsy cve → q = 0) ∧
    (requiredFieldsAllTruthy cve → q = 1) := by
  unfold calculateCveQuality at h
  cases hm : metricsCvssV31 cve with
  | error e =>
      rw [hm, exceptBind_error] at h
      exact Except.noConfusion h
  | ok m =>
      rw [hm, exceptBind_ok] at h
      injection h with h
      refine ⟨?_, ?_, ?_, ?_⟩
      · rw [← h, Rat.mkRat_eq_div]
        positivity
      · rw [← h, Rat.mkRat_eq_div]
        rw [div_le_one (by norm_num)]
        have hk : qualityNumerator cve m ≤ 4 := by
          unfold qualityNumerator
          split_ifs <;> omega
        exact_mod_cast hk
      · rintro ⟨h1, h2, ⟨m2, hm2, hmf⟩, h4⟩
        rw [hm] at hm2
        injection hm2 with hm2
        subst hm2
        rw [← h]
        simp [qualityNumerator, h1, h2, hmf, h4]
      · rintro ⟨h1, h2, ⟨m2, hm2, hmt⟩, h4⟩
        rw [hm] at hm2
        injection hm2 with hm2
        subst hm2
        rw [← h]
        norm_num [qualityNumerator, h1, h2, hmt, h4, Rat.mkRat_eq_div]

/-- C1 witness: the empty CVE dict scores `0`. -/
theorem quality_score_range_witness :
    0 ≤ (0 : ℚ) ∧ (0 : ℚ) ≤ 1 ∧
    (requiredFieldsAllFalsy [] → (0 : ℚ) = 0) ∧
    (requiredFieldsAllTruthy [] → (0 : ℚ) = 1) :=
  quality_score_range [] 0 (by decide)

theorem replaceOne_find_self (store : List TransformedRecord) (r : TransformedRecord) :
    findCve (replaceOne store r).1 r.cve_id = some r := by
  induction store with
  | nil => simp [replaceOne, findCve]
  | cons d ds ih =>
      by_cases hd : d.cve_id = r.cve_id
      · simp [replaceOne, hd, findCve]
      · simp [replaceOne, hd, findCve, ih]

theorem replaceOne_find_other (store : List TransformedRecord) (r : TransformedRecord)
    (c : Json) (hc : c ≠ r.cve_id) :
    findCve (replaceOne store r).1 c = findCve store c := by
  have hrc : ¬(r.cve_id = c) := fun hh => hc hh.symm
  induction store with
  | nil => simp [replaceOne, findCve, hrc]
  | cons d ds ih =>
      by_cases hd : d.cve_id = r.cve_id
      · have hdc : ¬(d.cve_id = c) := fun hh => hc ((hd.symm.trans hh).symm)
        rw [replaceOne, if_pos hd]
        show findCve (r :: ds) c = findCve (d :: ds) c
        simp only [findCve]
        rw [if_neg hrc, if_neg hdc]
      · rw [replaceOne, if_neg hd]
        show findCve (d :: (replaceOne ds r).1) c = findCve (d :: ds) c
        simp only [findCve]
        rw [ih]

theorem replaceOne_stable (store : List TransformedRecord) (r : TransformedRecord)
    (hf : findCve store r.cve_id = some r) :
    replaceOne store r = (store, false, false) := by
  induction store with
  | nil => simp [findCve] at hf
  | cons d ds ih =>
      by_cases hd : d.cve_id = r.cve_id
      · rw [findCve, if_pos hd] at hf
        injection hf with hf
        subst hf
        simp [replaceOne]
      · rw [findCve, if_neg hd] at hf
        simp [replaceOne, hd, ih hf]

theorem loadGo_find_untouched (docs : List TransformedRecord) (store : List TransformedRecord)
    (c : Json) (i u : Nat) (hall : ∀ e ∈ docs, e.cve_id ≠ c) :
    findCve (loadGo store docs i u).1 c = findCve store c := by
  induction docs generalizing store i u with
  | nil => rfl
  | cons r rest ih =>
      rw [loadGo]
      rw [ih _ _ _ (fun e he => hall e (List.mem_cons_of_mem _ he))]
      exact replaceOne_find_other store r c (Ne.symm (hall r (List.mem_cons_self _ _)))

theorem loadGo_find_self (docs : List TransformedRecord) (store : List TransformedRecord)
    (i u : Nat) (hnd : (docs.map TransformedRecord.cve_id).Nodup) :
    ∀ d ∈ docs, findCve (loadGo store docs i u).1 d.cve_id = some d := by
  induction docs generalizing store i u with
  | nil => intro d hd; cases hd
  | cons r rest ih =>
      rw [List.map_cons, List.nodup_cons] at hnd
      intro d hd
      rw [loadGo]
      rcases List.mem_cons.mp hd with rfl | hd2
      · rw [loadGo_find_untouched rest _ _ _ _ ?hne]
        · exact replaceOne_find_self store d
        case hne =>
          intro e he hee
          exact hnd.1 (hee ▸ List.mem_map_of_mem TransformedRecord.cve_id he)
      · exact ih _ _ _ hnd.2 d hd2

theorem loadGo_stable (docs : List TransformedRecord) (store : List TransformedRecord)
    (i u : Nat) (hall : ∀ d ∈ docs, findCve store d.cve_id = some d) :
    loadGo store docs i u = (store, i, u) := by
  induction docs generalizing i u with
  | nil => rfl
  | cons r rest ih =>
      rw [loadGo]
      have h1 := replaceOne_stable store r (hall r (List.mem_cons_self _ _))
      rw [h1]
      exact ih _ _ (fun d hd => hall d (List.mem_cons_of_mem _ hd))

/-- C5: re-loading the identical batch (with pairwise distinct natural ids)
against the store produced by the first load inserts nothing and, since no
document's content differs from the stored copy, also updates nothing. -/
theorem load_data_idempotent (store : List TransformedRecord) (docs : List TransformedRecord)
    (hnd : (docs.map TransformedRecord.cve_id).Nodup) :
    (loadData (loadData store docs).store docs).insertedCount = 0 ∧
    (loadData (loadData store docs).store docs).updatedCount = 0 := by
  by_cases hd : docs.isEmpty
  · simp [loadData, hd]
  · have hall := loadGo_find_self docs store 0 0 hnd
    have hstable := loadGo_stable docs (loadGo store docs 0 0).1 0 0 hall
    simp [loadData, hd, hstable]

/-- C5 witness: a singleton batch loaded twice into an empty store. -/
theorem load_data_idempotent_witness :
    (loadData (loadData [] [sampleDoc]).store [sampleDoc]).insertedCount = 0 ∧
    (loadData (loadData [] [sampleDoc]).store [sampleDoc]).updatedCount = 0 :=
  load_data_idempotent [] [sampleDoc] (by simp)
